import Mathlib

/-!
Verification development for the Multi-Agent-Researcher workflow engine.

The definitions below are a shallow embedding of the Python sources:
`src/state.py`, `src/router.py`, the five agent modules under `src/agents/`,
`src/utils.py` (retry wrapper), and `src/api/{workflow_runner,task_store}.py`.
Python dicts keyed by the fixed `SupervisorState` schema are embedded as a
record of `Option` fields (a missing key is `none`); LangChain message objects
become a small inductive type; external LLM / tool / logging calls become an
explicit `Except` parameter so that each agent body is a pure function of the
input state and the outcome of its external call.
-/

namespace MultiAgent

/-- Embedding of LangChain message objects as used by the agents:
`HumanMessage`, `AIMessage`, `ToolMessage`. -/
inductive Msg where
  | human (content : String)
  | ai (content : String)
  | tool (content : String) (tool_call_id : String)
deriving Repr, DecidableEq

/-- Embedding of the `SupervisorState` dict (src/state.py) as carried through
`workflow_runner.py`.  A key that is absent from the Python dict is `none`;
`evaluation_scores` (a Python dict) is an insertion-ordered association list. -/
structure PyState where
  messages : Option (List Msg) := none
  next_agent : Option String := none
  routing_reason : Option String := none
  research_data : Option String := none
  analysis : Option String := none
  final_report : Option String := none
  task_complete : Option Bool := none
  current_task : Option String := none
  evaluation_scores : Option (List (String × ℚ)) := none
  evaluation_feedback : Option String := none
  evaluation_passed : Option Bool := none
  sources : Option (List String) := none
  error : Option String := none
deriving Repr, DecidableEq

/-- LangGraph terminal signal `END` (the string `"__end__"`). -/
def END_SIGNAL : String := "__end__"

/-- Embedding of `router` from src/router.py (`create_router`).  Routes to the
next node name or to `END_SIGNAL`, looking only at `next_agent` and
`task_complete`. -/
def router (state : PyState) : String :=
  let next_agent := state.next_agent.getD "supervisor"
  if next_agent = "evaluator" then "evaluator"
  else if next_agent = "end" ∨ state.task_complete.getD false then END_SIGNAL
  else if next_agent = "supervisor" ∨ next_agent = "researcher" ∨
      next_agent = "analyst" ∨ next_agent = "writer" then next_agent
  else "supervisor"

/-- Auxiliary for the Python substring test: does `needle` occur inside the
character list? -/
def listHasSub : List Char → List Char → Bool
  | _, [] => true
  | [], _ :: _ => false
  | c :: t, needle => List.isPrefixOf needle (c :: t) || listHasSub t needle

/-- Python `needle in hay` substring containment on strings. -/
def strContains (hay needle : String) : Bool :=
  listHasSub hay.toList needle.toList

/-- The content of the first `HumanMessage` in a message list
(src/agents/supervisor.py lines 54-58, src/agents/researcher.py lines 89-93). -/
def firstHumanContent : List Msg → Option String
  | [] => none
  | Msg.human c :: _ => some c
  | _ :: rest => firstHumanContent rest

/-- Supervisor task resolution (src/agents/supervisor.py lines 51-62):
`current_task` if non-empty, else the first human message, else a fixed
fallback text. -/
def supervisorTask (state : PyState) : String :=
  let task := state.current_task.getD ("")
  let task :=
    if task = "" then (firstHumanContent (state.messages.getD [])).getD ("") else task
  if task = "" then "No task provided" else task

/-- The pure routing decision of the supervisor agent
(src/agents/supervisor.py lines 97-142): given the three completion flags and
the stripped lowercased LLM decision text, returns
`(next_agent, supervisor_msg, routing_reason)`. -/
def supervisor_decide (has_research has_analysis has_report : Bool)
    (decision_text : String) : String × String × String :=
  if has_report then
    ("end", "Supervisor: All tasks complete! Great work team.", "report complete")
  else if !has_research then
    ("researcher", "Supervisor: Let\x27s start with research. Assigning to Researcher...",
      "no research data found")
  else if has_research && !has_analysis then
    ("analyst", "Supervisor: Research done. Time for analysis. Assigning to Analyst...",
      "research complete, analysis pending")
  else if has_analysis && !has_report then
    ("writer", "Supervisor: Analysis complete. Let\x27s create the report. Assigning to Writer...",
      "analysis complete, report pending")
  else if strContains decision_text ("researcher") then
    ("researcher", "Supervisor: Assigning to Researcher...", "LLM fallback")
  else if strContains decision_text ("analyst") then
    ("analyst", "Supervisor: Assigning to Analyst...", "LLM fallback")
  else if strContains decision_text ("writer") then
    ("writer", "Supervisor: Assigning to Writer...", "LLM fallback")
  else
    ("end", "Supervisor: Task seems complete.", "LLM says done")

/-- Embedding of the supervisor agent body (src/agents/supervisor.py lines
45-159).  `llmDecision` is the outcome of the external LLM decision chain; an
exception there is caught and converted into the error update of lines
151-159. -/
def supervisor_agent (state : PyState) (llmDecision : Except String String) : PyState :=
  match llmDecision with
  | Except.error e =>
      { messages := some [Msg.ai ("Supervisor encountered an error: " ++ e)],
        next_agent := some ("supervisor"),
        current_task := some (state.current_task.getD ("")),
        error := some e }
  | Except.ok decision_text =>
      let task := supervisorTask state
      let has_research := state.research_data.getD ("") != ""
      let has_analysis := state.analysis.getD ("") != ""
      let has_report := state.final_report.getD ("") != ""
      let d := supervisor_decide has_research has_analysis has_report decision_text
      { messages := some [Msg.ai d.2.1],
        next_agent := some d.1,
        routing_reason := some d.2.2,
        current_task := some task }

/-- Researcher task resolution (src/agents/researcher.py lines 86-95):
like the supervisor but with fallback `"research topic"`. -/
def researcherTask (state : PyState) : String :=
  let task := state.current_task.getD ("")
  let task :=
    if task = "" then (firstHumanContent (state.messages.getD [])).getD ("") else task
  if task = "" then "research topic" else task

/-- Embedding of the researcher agent body (src/agents/researcher.py lines
82-279).  `research` is the outcome of the whole external research flow (LLM
plus optional tool calls): on success it yields the gathered text and the
source URL list; an exception is caught and converted into the error update of
lines 271-279. -/
def researcher_agent (state : PyState)
    (research : Except String (String × List String)) : PyState :=
  match research with
  | Except.error e =>
      { messages := some [Msg.ai ("Researcher encountered an error: " ++ e)],
        research_data := some (""),
        next_agent := some ("supervisor"),
        error := some e }
  | Except.ok (data, sources) =>
      let task := researcherTask state
      let research_data :=
        if sources ≠ [] then
          data ++ "\n\nSources:\n" ++
            String.intercalate ("\n") ((sources.take 5).map (fun url => "- " ++ url))
        else data
      let agent_message :=
        "Researcher: I\x27ve completed the research on \x27" ++ task ++ "\x27." ++
          (if sources ≠ [] then " Found " ++ toString sources.length ++ " source(s)." else "") ++
          "\n\nKey findings:\n" ++ research_data.take 500 ++ "..."
      { messages := some [Msg.ai agent_message],
        research_data := some research_data,
        sources := some sources,
        next_agent := some ("supervisor") }

/-- Embedding of the analyst agent body (src/agents/analyst.py lines 15-72). -/
def analyst_agent (state : PyState) (llmResult : Except String String) : PyState :=
  let research_data := state.research_data.getD ("")
  if research_data = "" then
    { messages := some [Msg.ai ("Analyst: No research data available to analyze.")],
      analysis := some (""),
      next_agent := some ("supervisor"),
      error := some ("No research data") }
  else
    match llmResult with
    | Except.ok analysis =>
        { messages := some [Msg.ai ("Analyst: I\x27ve completed the analysis.\n\nTop insights:\n"
            ++ analysis.take 400 ++ "...")],
          analysis := some analysis,
          next_agent := some ("supervisor") }
    | Except.error e =>
        { messages := some [Msg.ai ("Analyst encountered an error: " ++ e)],
          analysis := some (""),
          next_agent := some ("supervisor"),
          error := some e }

/-- The 50-character `=` separator line used by the writer (`'='*50`). -/
def eqLine : String := String.mk (List.replicate 50 '=')

/-- The final report framing produced by the writer
(src/agents/writer.py lines 61-68). -/
def formatFinalReport (task report : String) : String :=
  "\nFINAL REPORT\n" ++ eqLine ++ "\nTopic: " ++ task ++ "\n" ++ eqLine ++ "\n\n"
    ++ report ++ "\n"

/-- Embedding of the writer agent body (src/agents/writer.py lines 16-86). -/
def writer_agent (state : PyState) (llmResult : Except String String) : PyState :=
  let research_data := state.research_data.getD ("")
  let analysis := state.analysis.getD ("")
  let task := state.current_task.getD ("")
  if research_data = "" ∨ analysis = "" then
    { messages := some [Msg.ai ("Writer: Missing research data or analysis. Cannot create report.")],
      final_report := some (""),
      next_agent := some ("supervisor"),
      error := some ("Missing required data") }
  else
    match llmResult with
    | Except.ok report =>
        { messages := some [Msg.ai ("Writer: Report complete! See below for the full document.")],
          final_report := some (formatFinalReport task report),
          next_agent := some ("evaluator"),
          task_complete := some true }
    | Except.error e =>
        { messages := some [Msg.ai ("Writer encountered an error: " ++ e)],
          final_report := some (""),
          next_agent := some ("supervisor"),
          task_complete := some false,
          error := some e }

/-- Embedding of the `EvaluationScores` structured output model
(src/agents/evaluator.py lines 20-26).  The pydantic `Field(ge=0, le=10)`
validators become bound proofs carried with the record, so any value of this
type is one the Python model would have accepted. -/
structure EvaluationScores where
  factual_consistency : ℚ
  completeness : ℚ
  clarity : ℚ
  actionability : ℚ
  feedback : String
  fc_bounds : 0 ≤ factual_consistency ∧ factual_consistency ≤ 10
  co_bounds : 0 ≤ completeness ∧ completeness ≤ 10
  cl_bounds : 0 ≤ clarity ∧ clarity ≤ 10
  ac_bounds : 0 ≤ actionability ∧ actionability ≤ 10

/-- One-decimal rendering of a non-negative rational, standing in for the
Python `f-string` format `:.1f` in the evaluator message. -/
def fmtTenth (q : ℚ) : String :=
  let t : ℤ := ⌊q * 10 + 1 / 2⌋
  toString (t / 10) ++ "." ++ toString (t % 10)

/-- Embedding of the evaluator agent body (src/agents/evaluator.py lines
36-170).  `judged` is the outcome of the external work inside the `try` block
(Galileo initialisation, judge LLM call, trace logging): on success it yields
the validated structured scores; an exception is caught and converted into the
error update of lines 160-170. -/
def evaluator_agent (state : PyState) (judged : Except String EvaluationScores) : PyState :=
  let final_report := state.final_report.getD ("")
  if final_report = "" then
    { messages := some [Msg.ai ("Evaluator: No report found to evaluate.")],
      next_agent := some ("supervisor"),
      evaluation_scores := some [],
      evaluation_feedback := some ("No report available for evaluation."),
      evaluation_passed := some false }
  else
    match judged with
    | Except.ok r =>
        let scores : List (String × ℚ) :=
          [("factual consistency", r.factual_consistency),
            ("completeness", r.completeness),
            ("clarity", r.clarity),
            ("actionability", r.actionability)]
        let avg_score : ℚ :=
          if scores ≠ [] then (scores.map (fun p => p.2)).sum / (scores.length : ℚ) else 0
        let evaluation_passed : Bool := decide (7 ≤ avg_score)
        let status_text := if evaluation_passed then "PASSED" else "FAILED"
        { messages := some [Msg.ai ("Evaluator: Evaluation complete. Average score: "
            ++ fmtTenth avg_score ++ "/10. " ++ status_text)],
          next_agent := some ("supervisor"),
          evaluation_scores := some scores,
          evaluation_feedback := some r.feedback,
          evaluation_passed := some evaluation_passed }
    | Except.error e =>
        { messages := some [Msg.ai ("Evaluator encountered an error: " ++ e)],
          next_agent := some ("supervisor"),
          evaluation_scores := some [],
          evaluation_feedback := some ("Error during evaluation: " ++ e),
          evaluation_passed := some false,
          error := some e }

/-- Writing one key of a Python dict embedded as an insertion-ordered
association list: overwrite in place when the key exists, else append. -/
def dictSet (d : List (String × ℚ)) (k : String) (v : ℚ) : List (String × ℚ) :=
  if d.any (fun p => p.1 == k) then
    d.map (fun p => if p.1 == k then (k, v) else p)
  else d ++ [(k, v)]

/-- Python `current.update(value)`: shallow, key-wise dict merge. -/
def dictUpdate (d u : List (String × ℚ)) : List (String × ℚ) :=
  u.foldl (fun acc p => dictSet acc p.1 p.2) d

/-- Replacement merge for a scalar field of `_merge_state`: a key present in
the update overwrites, an absent key keeps the current value. -/
def mergeField {α : Type} (u c : Option α) : Option α :=
  match u with
  | some v => some v
  | none => c

/-- Embedding of `_merge_state` (src/api/workflow_runner.py lines 44-56).
The `"messages"` key extends the current list; a dict-typed value
(`evaluation_scores` is the schema's only dict field) is shallow-merged when
the current value is also a dict; every other present key replaces the current
value — including the list-valued `sources`. -/
def merge_state (current update : PyState) : PyState :=
  { messages :=
      match update.messages with
      | some m => some (current.messages.getD [] ++ m)
      | none => current.messages,
    evaluation_scores :=
      match update.evaluation_scores, current.evaluation_scores with
      | some u, some d => some (dictUpdate d u)
      | some u, none => some u
      | none, _ => current.evaluation_scores,
    next_agent := mergeField update.next_agent current.next_agent,
    routing_reason := mergeField update.routing_reason current.routing_reason,
    research_data := mergeField update.research_data current.research_data,
    analysis := mergeField update.analysis current.analysis,
    final_report := mergeField update.final_report current.final_report,
    task_complete := mergeField update.task_complete current.task_complete,
    current_task := mergeField update.current_task current.current_task,
    evaluation_feedback := mergeField update.evaluation_feedback current.evaluation_feedback,
    evaluation_passed := mergeField update.evaluation_passed current.evaluation_passed,
    sources := mergeField update.sources current.sources,
    error := mergeField update.error current.error }

/-- Embedding of the retry policy of `invoke_with_retry` (src/utils.py lines
21-43): tenacity `stop_after_attempt(3)` with `reraise=True`.  The callable is
modelled as the outcome of each attempt number; `fuel` counts the remaining
retries after the current attempt `k`.  Returns the number of invocations made
together with the final outcome (the last underlying error is re-raised once
attempts are exhausted). -/
def retryAttempts {E A : Type} (f : Nat → Except E A) (k : Nat) : Nat → Nat × Except E A
  | 0 => (k, f k)
  | fuel + 1 =>
      match f k with
      | Except.ok a => (k, Except.ok a)
      | Except.error _ => retryAttempts f (k + 1) fuel

/-- `invoke_with_retry`: up to 3 attempts total, first attempt numbered 1. -/
def invoke_with_retry {E A : Type} (f : Nat → Except E A) : Nat × Except E A :=
  retryAttempts f 1 2

/-- Task status enumeration (src/api/models.py lines 9-14). -/
inductive TaskStatus where
  | pending
  | processing
  | completed
  | failed
deriving Repr, DecidableEq

/-- Task progress model (src/api/models.py lines 41-49). -/
structure TaskProgress where
  current_agent : Option String := none
  completed_agents : List String := []
  total_agents : Nat := 5
  events : List String := []
deriving Repr, DecidableEq

/-- Task result model (src/api/models.py lines 52-59). -/
structure TaskResult where
  final_report : String
  evaluation_scores : Option (List (String × ℚ)) := none
  evaluation_feedback : Option String := none
  evaluation_passed : Option Bool := none
  conversation_history : List String := []
  sources : List String := []
deriving Repr, DecidableEq

/-- One record of the in-memory task table (src/api/task_store.py lines
20-29).  Timestamps are abstract ticks supplied by the caller in place of
`datetime.now()`. -/
structure TaskRec where
  task_id : String
  task : String
  status : TaskStatus
  created_at : Nat
  updated_at : Nat
  progress : TaskProgress
  result : Option TaskResult
  error : Option String
deriving Repr, DecidableEq

/-- The `TaskStore._tasks` dict: an insertion-ordered association list from
task id to record. -/
abbrev TaskTable : Type := List (String × TaskRec)

/-- Key lookup in the task table (Python `self._tasks.get(task_id)` /
`task_id in self._tasks`). -/
def lookupTask : TaskTable → String → Option TaskRec
  | [], _ => none
  | p :: rest, tid => if p.1 = tid then some p.2 else lookupTask rest tid

/-- In-place mutation of one record, a no-op when the id is absent — the shape
of every `if task_id in self._tasks:` guarded method of `TaskStore`. -/
def setTask (store : TaskTable) (tid : String) (f : TaskRec → TaskRec) : TaskTable :=
  store.map (fun p => if p.1 = tid then (p.1, f p.2) else p)

/-- `TaskStore.create_task` (lines 17-30), with the fresh uuid and the clock
passed in. -/
def create_task (store : TaskTable) (tid task : String) (now : Nat) : TaskTable :=
  store ++ [(tid,
    { task_id := tid, task := task, status := TaskStatus.pending,
      created_at := now, updated_at := now,
      progress := { total_agents := 5 }, result := none, error := none })]

/-- `TaskStore.update_status` (lines 32-38); `if error:` only stores a truthy
(non-empty) error string. -/
def update_status (store : TaskTable) (tid : String) (status : TaskStatus)
    (err : Option String) (now : Nat) : TaskTable :=
  setTask store tid (fun r =>
    let r := { r with status := status, updated_at := now }
    match err with
    | some e => if e ≠ "" then { r with error := some e } else r
    | none => r)

/-- `TaskStore.update_progress` (lines 40-51): the incoming progress snapshot
replaces everything except `events`, which keeps the previously recorded
list. -/
def update_progress (store : TaskTable) (tid : String) (p : TaskProgress)
    (now : Nat) : TaskTable :=
  setTask store tid (fun r =>
    { r with progress := { p with events := r.progress.events }, updated_at := now })

/-- `TaskStore.append_event` (lines 53-64): appends one event to the existing
progress log. -/
def append_event (store : TaskTable) (tid : String) (event : String)
    (now : Nat) : TaskTable :=
  setTask store tid (fun r =>
    let p' : TaskProgress := { r.progress with events := r.progress.events ++ [event] }
    { r with progress := p', updated_at := now })

/-- `TaskStore.set_result` (lines 66-71). -/
def set_result (store : TaskTable) (tid : String) (result : TaskResult)
    (now : Nat) : TaskTable :=
  setTask store tid (fun r =>
    { r with result := some result, status := TaskStatus.completed, updated_at := now })

/-- Removal of one key from the table (Python `del self._tasks[task_id]`). -/
def removeTask (store : TaskTable) (tid : String) : TaskTable :=
  store.filter (fun p => decide (p.1 ≠ tid))

/-- `TaskStore.delete_task` (lines 81-86): returns whether the id was present
together with the resulting table. -/
def delete_task (store : TaskTable) (tid : String) : Bool × TaskTable :=
  if (lookupTask store tid).isSome then (true, removeTask store tid)
  else (false, store)

/-- Terminal condition of one orchestrator run. -/
inductive RunPhase where
  | terminated
  | failed (err : String)
deriving Repr, DecidableEq

/-- Modelled from the spec: the stall guard of the orchestrator loop (spec
section 4.4) is not implemented in the repository sources — spec section 9
records that the limit and fingerprint definition are absent from the original
and that section 4.4 is the reference behaviour.  The loop observes one
`(stage, snapshot-fingerprint)` pair per iteration and trips once the count of
consecutive identical pairs reaches the configured limit. -/
def stallScan (limit : Nat) : Option (String × Nat) → Nat → List (String × Nat) → Bool
  | _, _, [] => false
  | prev, streak, p :: rest =>
      let streak' := if some p = prev then streak + 1 else 1
      if limit ≤ streak' then true else stallScan limit (some p) streak' rest

/-- Modelled from the spec: outcome of an orchestrator run over its iteration
trace — `failed` with a stall error when the stall guard trips, `terminated`
otherwise. -/
def orchestratorOutcome (limit : Nat) (trace : List (String × Nat)) : RunPhase :=
  if stallScan limit none 0 trace then RunPhase.failed ("stall") else RunPhase.terminated

/-- Terminal task-table effect of `run_workflow` (src/api/workflow_runner.py):
a raised orchestrator error reaches the outer `except` and marks the task
failed via `update_status` (lines 248-255); a normal completion stores the
result via `set_result` (line 175).  The stall-guard outcome feeding it is
modelled from the spec (see `orchestratorOutcome`). -/
def run_workflow_final (store : TaskTable) (tid : String) (result : TaskResult)
    (now limit : Nat) (trace : List (String × Nat)) : TaskTable :=
  match orchestratorOutcome limit trace with
  | RunPhase.failed e => update_status store tid TaskStatus.failed (some e) now
  | RunPhase.terminated => set_result store tid result now

/-! ## Helper lemmas -/

/-- The writer's framed report is never the empty string: it always starts
with the `FINAL REPORT` banner. -/
theorem formatFinalReport_ne_empty (t r : String) : formatFinalReport t r ≠ "" := by
  intro h
  have hlen := congrArg String.length h
  simp [formatFinalReport, String.length_append] at hlen
  exact absurd hlen.1.1.1.1.1.1.1.1 (by decide)

/-! ## Theorems -/

/-- C1 (counterexample): a snapshot with `final_report` and
`evaluation_scores` both non-empty on which the router does **not** return the
terminate signal — `next_agent = "researcher"` and `task_complete = false`
make it return `"researcher"`, because the router never inspects
`final_report` or `evaluation_scores`. -/
theorem c1_counterexample :
    let sc : List (String × ℚ) := [("clarity", 8)]
    let s : PyState :=
      { final_report := some ("a report"), evaluation_scores := some sc,
        next_agent := some ("researcher"), task_complete := some false }
    s.final_report.getD ("") ≠ "" ∧ s.evaluation_scores.getD [] ≠ [] ∧
      router s = "researcher" ∧ router s ≠ END_SIGNAL := by
  refine ⟨by decide, by decide, by decide, by decide⟩

/-- C1 (amended): the router terminates only on its `next_agent` /
`task_complete` inputs — for every snapshot whose `final_report` and
`evaluation_scores` are non-empty, it returns the terminate signal provided
`next_agent` is not `"evaluator"` and either `task_complete` is set or
`next_agent` is `"end"`. -/
theorem c1_router_terminates (s : PyState)
    (_hreport : s.final_report.getD ("") ≠ "")
    (_hscores : s.evaluation_scores.getD [] ≠ [])
    (hne : s.next_agent.getD ("supervisor") ≠ "evaluator")
    (hterm : s.task_complete.getD false = true ∨ s.next_agent.getD ("supervisor") = "end") :
    router s = END_SIGNAL := by
  rcases hterm with h | h
  · simp [router, hne, h]
  · simp [router, hne, h]

/-- C1 witness: the amended theorem applied to a concrete terminating
snapshot. -/
theorem c1_witness :
    router { final_report := some ("a report"),
             evaluation_scores := some ([("clarity", (8 : ℚ))]),
             next_agent := some ("supervisor"), task_complete := some true } = END_SIGNAL :=
  c1_router_terminates _ (by decide) (by decide) (by decide) (Or.inl (by decide))

/-- C2 (counterexample): a snapshot with empty `research_data` on which the
router does **not** return the gather stage — `next_agent = "analyst"` sends
it to `"analyst"`, because the router never inspects `research_data`. -/
theorem c2_counterexample :
    let s : PyState :=
      { research_data := some (""), next_agent := some ("analyst"),
        task_complete := some false }
    s.research_data.getD ("") = "" ∧ router s = "analyst" ∧ router s ≠ "researcher" := by
  refine ⟨by decide, by decide, by decide⟩

/-- C2 (amended): the gather-first rule lives in the supervisor, not the
router — whenever `research_data` and `final_report` are both empty the
supervisor decision selects `"researcher"` regardless of the analysis flag and
of the LLM decision text, and the router forwards `next_agent = "researcher"`
whenever `task_complete` is unset. -/
theorem c2_gather_first (has_analysis : Bool) (decision_text : String) (s : PyState)
    (_hempty : s.research_data.getD ("") = "")
    (hna : s.next_agent = some ("researcher"))
    (htc : s.task_complete.getD false = false) :
    (supervisor_decide false has_analysis false decision_text).1 = "researcher" ∧
      router s = "researcher" := by
  constructor
  · simp [supervisor_decide]
  · simp [router, hna, htc]

/-- C2 witness: the amended theorem applied to a concrete snapshot and
decision text. -/
theorem c2_witness :
    (supervisor_decide false true false ("DONE")).1 = "researcher" ∧
      router { research_data := some (""), next_agent := some ("researcher"),
               task_complete := some false } = "researcher" :=
  c2_gather_first true ("DONE") _ (by decide) (by decide) (by decide)

/-- C3 (counterexample): on the writer success path the partial update sets
`task_complete` to `true`, not `false` as claimed. -/
theorem c3_counterexample :
    let s : PyState := { research_data := some ("data"), analysis := some ("insights"),
                         current_task := some ("topic") }
    (writer_agent s (Except.ok ("body"))).task_complete = some true ∧
      (writer_agent s (Except.ok ("body"))).task_complete ≠ some false := by
  refine ⟨rfl, by decide⟩

/-- C3 (amended): for every input state with `research_data` and `analysis`
non-empty, the writer success path populates `final_report` (with a non-empty
framed report), sets `next_agent = "evaluator"` and `task_complete = true`;
because the router gives `next_agent = "evaluator"` precedence over
`task_complete`, merging this update into any snapshot still routes to the
evaluator rather than terminating the run. -/
theorem c3_writer_success (s sPrev : PyState) (report : String)
    (hr : s.research_data.getD ("") ≠ "")
    (ha : s.analysis.getD ("") ≠ "") :
    (writer_agent s (Except.ok report)).final_report
        = some (formatFinalReport (s.current_task.getD ("")) report) ∧
      (writer_agent s (Except.ok report)).final_report.getD ("") ≠ "" ∧
      (writer_agent s (Except.ok report)).next_agent = some ("evaluator") ∧
      (writer_agent s (Except.ok report)).task_complete = some true ∧
      router (merge_state sPrev (writer_agent s (Except.ok report))) = "evaluator" := by
  have hcond : ¬ (s.research_data.getD ("") = "" ∨ s.analysis.getD ("") = "") := by
    rintro (h | h) <;> [exact hr h; exact ha h]
  refine ⟨?_, ?_, ?_, ?_, ?_⟩
  · simp [writer_agent, hcond]
  · simp [writer_agent, hcond, formatFinalReport_ne_empty]
  · simp [writer_agent, hcond]
  · simp [writer_agent, hcond]
  · have hnext : (merge_state sPrev (writer_agent s (Except.ok report))).next_agent
        = some ("evaluator") := by
      simp [merge_state, mergeField, writer_agent, hcond]
    simp [router, hnext]

/-- C3 witness: the amended theorem applied to a concrete state and report. -/
theorem c3_witness :
    (writer_agent { research_data := some ("data"), analysis := some ("insights"),
                    current_task := some ("topic") } (Except.ok ("body"))).next_agent
      = some ("evaluator") :=
  (c3_writer_success _ ({} : PyState) ("body") (by decide) (by decide)).2.2.1

/-- C4 (counterexample): the merge does **not** treat `sources` as a
deduplicated union — an update carrying a `sources` list replaces the current
one wholesale, so merging an update that contains an already-present source
drops every previously merged source the update omits. -/
theorem c4_counterexample :
    let src0 : List String := ["a", "b"]
    let src1 : List String := ["a"]
    let s : PyState := { sources := some src0 }
    let u1 : PyState := { sources := some src1 }
    "b" ∈ src0 ∧ "a" ∈ src1 ∧
      (merge_state (merge_state s u1) ({} : PyState)).sources = some src1 ∧
      "b" ∉ (merge_state (merge_state s u1) ({} : PyState)).sources.getD [] := by
  refine ⟨by decide, by decide, by decide, by decide⟩

/-- C4 (amended): merging updates `U1` then `U2` into snapshot `S` appends
their message lists in order (`S` then `U1` then `U2`), exactly as claimed;
but `sources` is a plain replacement field — an update carrying a `sources`
key overwrites the snapshot's whole source list with its own, with no union
and no deduplication. -/
theorem c4_merge_conversation (S U1 U2 : PyState) (m1 m2 : List Msg) (l1 : List String)
    (h1 : U1.messages = some m1) (h2 : U2.messages = some m2)
    (hs1 : U1.sources = some l1) (hs2 : U2.sources = none) :
    (merge_state (merge_state S U1) U2).messages
        = some (S.messages.getD [] ++ m1 ++ m2) ∧
      (merge_state S U1).sources = some l1 ∧
      (merge_state (merge_state S U1) U2).sources = some l1 := by
  refine ⟨?_, ?_, ?_⟩
  · simp [merge_state, h1, h2, List.append_assoc]
  · simp [merge_state, mergeField, hs1]
  · simp [merge_state, mergeField, hs1, hs2]

/-- C4 witness: the amended theorem applied to concrete snapshot and
updates. -/
theorem c4_witness :
    (merge_state (merge_state { messages := some [Msg.human ("hi")] }
          { messages := some [Msg.ai ("one")], sources := some (["a", "b"] : List String) })
        { messages := some [Msg.ai ("two")] }).messages
      = some [Msg.human ("hi"), Msg.ai ("one"), Msg.ai ("two")] := by
  have h := c4_merge_conversation { messages := some [Msg.human ("hi")] }
    { messages := some [Msg.ai ("one")], sources := some (["a", "b"] : List String) }
    { messages := some [Msg.ai ("two")] }
    [Msg.ai ("one")] [Msg.ai ("two")] (["a", "b"] : List String) rfl rfl rfl rfl
  simpa using h.1

/-- C5: the retry invoker of `invoke_with_retry` makes at most 3 attempts —
when the first two invocations fail and the third succeeds it stops after
exactly 3 invocations and returns the third result, and when every invocation
fails it stops after exactly 3 invocations and propagates the third error (no
fourth attempt is ever made). -/
theorem c5_retry_three_attempts (E A : Type) (f : Nat → Except E A) (e1 e2 : E)
    (h1 : f 1 = Except.error e1) (h2 : f 2 = Except.error e2) :
    (∀ a, f 3 = Except.ok a → invoke_with_retry f = (3, Except.ok a)) ∧
      (∀ e3, f 3 = Except.error e3 → invoke_with_retry f = (3, Except.error e3)) := by
  have hrun : invoke_with_retry f = (3, f 3) := by
    simp [invoke_with_retry, retryAttempts, h1, h2]
  constructor
  · intro a ha; rw [hrun, ha]
  · intro e3 he; rw [hrun, he]

/-- C5 witness: the retry theorem applied to a callable failing on attempts 1
and 2 and succeeding on attempt 3, and to one failing on every attempt. -/
theorem c5_witness :
    invoke_with_retry (fun k => if k < 3 then Except.error ("boom") else Except.ok k)
        = (3, Except.ok 3) ∧
      invoke_with_retry (fun k => (Except.error (toString k) : Except String Nat))
        = (3, Except.error ("3")) := by
  constructor
  · exact (c5_retry_three_attempts String Nat
      (fun k => if k < 3 then Except.error ("boom") else Except.ok k)
      ("boom") ("boom") rfl rfl).1 3 rfl
  · exact (c5_retry_three_attempts String Nat
      (fun k => (Except.error (toString k) : Except String Nat))
      ("1") ("2") rfl rfl).2 ("3") rfl

/-- C6: on the evaluator success path (non-empty `final_report`, judge call
succeeded) the produced `evaluation_scores` map holds exactly the four fixed
metrics, each score lies in `[0, 10]`, and `evaluation_passed` is `true`
exactly when the arithmetic mean of the four scores is at least `7`. -/
theorem c6_evaluator_scores (s : PyState) (r : EvaluationScores)
    (h : s.final_report.getD ("") ≠ "") :
    (evaluator_agent s (Except.ok r)).evaluation_scores
        = some [("factual consistency", r.factual_consistency),
                ("completeness", r.completeness),
                ("clarity", r.clarity),
                ("actionability", r.actionability)] ∧
      (∀ q ∈ (evaluator_agent s (Except.ok r)).evaluation_scores.getD [],
        0 ≤ q.2 ∧ q.2 ≤ 10) ∧
      ((evaluator_agent s (Except.ok r)).evaluation_passed = some true ↔
        7 ≤ (r.factual_consistency + r.completeness + r.clarity + r.actionability) / 4) := by
  refine ⟨?_, ?_, ?_⟩
  · simp [evaluator_agent, h]
  · intro q hq
    simp [evaluator_agent, h] at hq
    rcases hq with hq | hq | hq | hq <;> rw [hq] <;>
      first
        | exact r.fc_bounds
        | exact r.co_bounds
        | exact r.cl_bounds
        | exact r.ac_bounds
  · simp only [evaluator_agent, h]
    simp [decide_eq_true_iff]
    constructor <;> intro hle <;> linarith

/-- C6 witness: the evaluator theorem applied to a concrete report and scores
averaging 7.5. -/
theorem c6_witness :
    let r0 : EvaluationScores :=
      { factual_consistency := 8, completeness := 7, clarity := 9, actionability := 6,
        feedback := "solid", fc_bounds := by norm_num, co_bounds := by norm_num,
        cl_bounds := by norm_num, ac_bounds := by norm_num }
    (evaluator_agent { final_report := some ("rep") } (Except.ok r0)).evaluation_passed
      = some true := by
  intro r0
  exact (c6_evaluator_scores { final_report := some ("rep") } r0
    (by decide)).2.2.mpr (by norm_num)

/-- C7: every stage node converts an internal failure into a normal return —
for every input state (satisfying the stage's prerequisite check, so that the
external work actually runs) and every exception text, each of the five agents
returns a partial update whose appended conversation message is the agent's
human-readable error text and whose error field records the exception; nothing
propagates out of the agent. -/
theorem c7_stage_errors_contained (s : PyState) (e : String) :
    ((supervisor_agent s (Except.error e)).messages
        = some [Msg.ai ("Supervisor encountered an error: " ++ e)] ∧
      (supervisor_agent s (Except.error e)).error = some e) ∧
    ((researcher_agent s (Except.error e)).messages
        = some [Msg.ai ("Researcher encountered an error: " ++ e)] ∧
      (researcher_agent s (Except.error e)).error = some e) ∧
    (s.research_data.getD ("") ≠ "" →
      (analyst_agent s (Except.error e)).messages
          = some [Msg.ai ("Analyst encountered an error: " ++ e)] ∧
        (analyst_agent s (Except.error e)).error = some e) ∧
    (s.research_data.getD ("") ≠ "" → s.analysis.getD ("") ≠ "" →
      (writer_agent s (Except.error e)).messages
          = some [Msg.ai ("Writer encountered an error: " ++ e)] ∧
        (writer_agent s (Except.error e)).error = some e) ∧
    (s.final_report.getD ("") ≠ "" →
      (evaluator_agent s (Except.error e)).messages
          = some [Msg.ai ("Evaluator encountered an error: " ++ e)] ∧
        (evaluator_agent s (Except.error e)).error = some e) := by
  refine ⟨⟨rfl, rfl⟩, ⟨rfl, rfl⟩, ?_, ?_, ?_⟩
  · intro h1
    constructor <;> simp [analyst_agent, h1]
  · intro h1 h2
    have hcond : ¬ (s.research_data.getD ("") = "" ∨ s.analysis.getD ("") = "") := by
      rintro (h | h) <;> [exact h1 h; exact h2 h]
    constructor <;> simp [writer_agent, hcond]
  · intro h1
    constructor <;> simp [evaluator_agent, h1]

/-- C7 witness: the containment theorem applied to a concrete fully populated
state and exception text. -/
theorem c7_witness :
    (analyst_agent { research_data := some ("data"), analysis := some ("insights"),
                     final_report := some ("rep") } (Except.error ("boom"))).error
      = some ("boom") :=
  ((c7_stage_errors_contained { research_data := some ("data"),
                                analysis := some ("insights"),
                                final_report := some ("rep") }
    ("boom")).2.2.1 (by decide)).2

/-- Looking up the mutated id after `setTask` yields the mutated record. -/
theorem lookupTask_setTask (store : TaskTable) (tid : String) (f : TaskRec → TaskRec) :
    lookupTask (setTask store tid f) tid = (lookupTask store tid).map f := by
  induction store with
  | nil => rfl
  | cons p rest ih =>
      by_cases hp : p.1 = tid
      · simp [setTask, lookupTask, hp]
      · simp only [setTask, List.map_cons, if_neg hp, lookupTask]
        simpa [setTask] using ih

/-- `setTask` on an absent id leaves the table unchanged. -/
theorem setTask_absent (store : TaskTable) (tid : String) (f : TaskRec → TaskRec)
    (h : lookupTask store tid = none) : setTask store tid f = store := by
  induction store with
  | nil => rfl
  | cons p rest ih =>
      by_cases hp : p.1 = tid
      · simp [lookupTask, hp] at h
      · rw [lookupTask, if_neg hp] at h
        simp only [setTask, List.map_cons, if_neg hp]
        have := ih h
        simp only [setTask] at this
        rw [this]

/-- After `removeTask` the removed id is gone. -/
theorem lookupTask_removeTask_self (store : TaskTable) (tid : String) :
    lookupTask (removeTask store tid) tid = none := by
  induction store with
  | nil => rfl
  | cons p rest ih =>
      by_cases hp : p.1 = tid
      · simpa [removeTask, List.filter_cons, hp] using ih
      · simpa [removeTask, List.filter_cons, hp, lookupTask] using ih

/-- `removeTask` leaves every other id untouched. -/
theorem lookupTask_removeTask_other (store : TaskTable) (tid other : String)
    (h : other ≠ tid) :
    lookupTask (removeTask store tid) other = lookupTask store other := by
  induction store with
  | nil => rfl
  | cons p rest ih =>
      by_cases hp : p.1 = tid
      · have hpo : p.1 ≠ other := fun hh => h (hp ▸ hh).symm
        simpa [removeTask, List.filter_cons, hp, lookupTask, hpo, Ne.symm h] using ih
      · by_cases ho : p.1 = other
        · simp [removeTask, List.filter_cons, hp, lookupTask, ho, h]
        · simpa [removeTask, List.filter_cons, hp, lookupTask, ho, h] using ih

/-- Once the scanner is on a streak of `p`, a further block of `k + 1` copies
of `p` trips the guard as soon as the streak plus the block reaches the
limit. -/
theorem stallScan_reaches (limit : Nat) (p : String × Nat) :
    ∀ (k streak : Nat) (rest : List (String × Nat)), limit ≤ streak + k + 1 →
      stallScan limit (some p) streak (List.replicate (k + 1) p ++ rest) = true := by
  intro k
  induction k with
  | zero =>
      intro streak rest h
      have h' : limit ≤ streak + 1 := by omega
      simp [stallScan, h']
  | succ k ih =>
      intro streak rest h
      rw [List.replicate_succ, List.cons_append]
      by_cases hc : limit ≤ streak + 1
      · simp [stallScan, hc]
      · have h2 : limit ≤ streak + 1 + k + 1 := by omega
        simpa [stallScan, hc] using ih (streak + 1) rest h2

/-- From any scanner state, a block of `k ≥ limit ≥ 1` identical consecutive
pairs trips the stall guard. -/
theorem stallScan_block (limit : Nat) (p : String × Nat) (prev : Option (String × Nat))
    (streak : Nat) (rest : List (String × Nat)) (k : Nat)
    (hk : 1 ≤ k) (hlim : limit ≤ k) :
    stallScan limit prev streak (List.replicate k p ++ rest) = true := by
  obtain ⟨k', rfl⟩ : ∃ k', k = k' + 1 := ⟨k - 1, by omega⟩
  rw [List.replicate_succ, List.cons_append]
  by_cases hp : some p = prev
  · by_cases hc : limit ≤ streak + 1
    · simp [stallScan, hp, hc]
    · cases k' with
      | zero => omega
      | succ k'' =>
          simpa [stallScan, hp, hc] using
            stallScan_reaches limit p k'' (streak + 1) rest (by omega)
  · by_cases hc : limit ≤ 1
    · simp [stallScan, hp, hc]
    · cases k' with
      | zero => omega
      | succ k'' =>
          simpa [stallScan, hp, hc] using
            stallScan_reaches limit p k'' 1 rest (by omega)

/-- A scan that trips on `ys` from every scanner state also trips on
`xs ++ ys`. -/
theorem stallScan_extend (limit : Nat) (ys : List (String × Nat))
    (hys : ∀ prev streak, stallScan limit prev streak ys = true) :
    ∀ (xs : List (String × Nat)) (prev : Option (String × Nat)) (streak : Nat),
      stallScan limit prev streak (xs ++ ys) = true := by
  intro xs
  induction xs with
  | nil => intro prev streak; simpa using hys prev streak
  | cons x xs ih =>
      intro prev streak
      rw [List.cons_append]
      by_cases hc : limit ≤ (if some x = prev then streak + 1 else 1)
      · simp [stallScan, hc]
      · simpa [stallScan, hc] using ih (some x) (if some x = prev then streak + 1 else 1)

/-- C8: any orchestrator trace containing `limit` consecutive identical
`(stage, snapshot-fingerprint)` pairs makes the run outcome `failed` with a
stall error, and the terminal task-table effect of the workflow runner then
marks the task's status `failed`.  The stall guard itself is modelled from the
spec (sections 4.4 and 9); the failure path through `update_status` is the
code's (src/api/workflow_runner.py lines 248-255, src/api/task_store.py lines
32-38). -/
theorem c8_stall_guard (store : TaskTable) (tid : String) (tr : TaskRec)
    (result : TaskResult) (now limit : Nat) (p : String × Nat)
    (pre post : List (String × Nat))
    (hlim : 1 ≤ limit)
    (htr : lookupTask store tid = some tr) :
    orchestratorOutcome limit (pre ++ List.replicate limit p ++ post)
        = RunPhase.failed ("stall") ∧
      (lookupTask (run_workflow_final store tid result now limit
            (pre ++ List.replicate limit p ++ post)) tid).map (fun r => r.status)
        = some TaskStatus.failed := by
  have hscan : stallScan limit none 0 (pre ++ (List.replicate limit p ++ post)) = true :=
    stallScan_extend limit (List.replicate limit p ++ post)
      (fun prev streak => stallScan_block limit p prev streak post limit hlim le_rfl)
      pre none 0
  have houtcome : orchestratorOutcome limit (pre ++ List.replicate limit p ++ post)
      = RunPhase.failed ("stall") := by
    rw [List.append_assoc]
    simp [orchestratorOutcome, hscan]
  refine ⟨houtcome, ?_⟩
  have hmatch : run_workflow_final store tid result now limit
      (pre ++ List.replicate limit p ++ post)
      = update_status store tid TaskStatus.failed (some ("stall")) now := by
    simp only [run_workflow_final]
    rw [houtcome]
  rw [hmatch]
  simp [update_status, lookupTask_setTask, htr]

/-- C8 witness: the stall theorem applied to a trace of two identical
researcher iterations with limit 2 on a concrete one-task table. -/
theorem c8_witness :
    orchestratorOutcome 2 ([] ++ List.replicate 2 (("researcher", 5) : String × Nat) ++ [])
        = RunPhase.failed ("stall") ∧
      (lookupTask (run_workflow_final (create_task [] ("t1") ("a task") 0) ("t1")
            { final_report := "r" } 1 2
            ([] ++ List.replicate 2 (("researcher", 5) : String × Nat) ++ [])) ("t1")).map
          (fun r => r.status)
        = some TaskStatus.failed :=
  c8_stall_guard (create_task [] ("t1") ("a task") 0) ("t1")
    { task_id := "t1", task := "a task", status := TaskStatus.pending,
      created_at := 0, updated_at := 0, progress := { total_agents := 5 },
      result := none, error := none }
    { final_report := "r" } 1 2 (("researcher", 5) : String × Nat) [] []
    (by decide) rfl

/-- C9: the progress event log is append-only — `update_progress` with a new
progress snapshot keeps every previously recorded event unchanged and in
order, and `append_event` adds exactly one event at the end of the existing
log. -/
theorem c9_event_log_append_only (store : TaskTable) (tid : String) (tr : TaskRec)
    (p : TaskProgress) (ev : String) (now : Nat)
    (htr : lookupTask store tid = some tr) :
    (lookupTask (update_progress store tid p now) tid).map (fun r => r.progress.events)
        = some tr.progress.events ∧
      (lookupTask (append_event store tid ev now) tid).map (fun r => r.progress.events)
        = some (tr.progress.events ++ [ev]) := by
  constructor
  · simp [update_progress, lookupTask_setTask, htr]
  · simp [append_event, lookupTask_setTask, htr]

/-- C9 witness: the append-only theorem applied to a one-task table. -/
theorem c9_witness :
    (lookupTask (append_event (create_task [] ("t1") ("a task") 0) ("t1")
          ("Workflow started") 1) ("t1")).map (fun r => r.progress.events)
      = some ["Workflow started"] :=
  (c9_event_log_append_only (create_task [] ("t1") ("a task") 0) ("t1")
    { task_id := "t1", task := "a task", status := TaskStatus.pending,
      created_at := 0, updated_at := 0, progress := { total_agents := 5 },
      result := none, error := none }
    { total_agents := 5 } ("Workflow started") 1 rfl).2

/-- C10: mutating operations on an absent task id are silent no-ops that leave
the whole table unchanged, and `delete_task` then returns `false`;
`delete_task` returns `true` exactly when the id is present, in which case it
removes that record and only that record. -/
theorem c10_missing_id_frame (store : TaskTable) (tid : String) (status : TaskStatus)
    (err : Option String) (p : TaskProgress) (ev : String) (result : TaskResult)
    (now : Nat) :
    (lookupTask store tid = none →
      update_status store tid status err now = store ∧
        update_progress store tid p now = store ∧
        append_event store tid ev now = store ∧
        set_result store tid result now = store ∧
        delete_task store tid = (false, store)) ∧
      ((delete_task store tid).1 = true ↔ (lookupTask store tid).isSome) ∧
      (∀ tr, lookupTask store tid = some tr →
        lookupTask (delete_task store tid).2 tid = none ∧
          ∀ other, other ≠ tid →
            lookupTask (delete_task store tid).2 other = lookupTask store other) := by
  refine ⟨?_, ?_, ?_⟩
  · intro h
    exact ⟨setTask_absent _ _ _ h, setTask_absent _ _ _ h, setTask_absent _ _ _ h,
      setTask_absent _ _ _ h, by simp [delete_task, h]⟩
  · by_cases h : (lookupTask store tid).isSome <;> simp [delete_task, h]
  · intro tr htr
    have hs : (lookupTask store tid).isSome = true := by simp [htr]
    constructor
    · simp [delete_task, hs, lookupTask_removeTask_self]
    · intro other ho
      simp [delete_task, hs, lookupTask_removeTask_other store tid other ho]

/-- C10 witness: the frame theorem applied to a one-task table, at an absent
id and at the present id. -/
theorem c10_witness :
    update_status (create_task [] ("t1") ("a task") 0) ("t2") TaskStatus.failed none 1
        = create_task [] ("t1") ("a task") 0 ∧
      (delete_task (create_task [] ("t1") ("a task") 0) ("t2")).2
        = create_task [] ("t1") ("a task") 0 ∧
      (delete_task (create_task [] ("t1") ("a task") 0) ("t1")).1 = true ∧
      lookupTask (delete_task (create_task [] ("t1") ("a task") 0) ("t1")).2 ("t1")
        = none := by
  refine ⟨?_, ?_, ?_, ?_⟩
  · exact ((c10_missing_id_frame (create_task [] ("t1") ("a task") 0) ("t2")
      TaskStatus.failed none { total_agents := 5 } ("ev") { final_report := "r" } 1).1
      rfl).1
  · exact congrArg Prod.snd (((c10_missing_id_frame (create_task [] ("t1") ("a task") 0)
      ("t2") TaskStatus.failed none { total_agents := 5 } ("ev")
      { final_report := "r" } 1).1 rfl).2.2.2.2)
  · exact ((c10_missing_id_frame (create_task [] ("t1") ("a task") 0) ("t1")
      TaskStatus.failed none { total_agents := 5 } ("ev") { final_report := "r" } 1).2.1).mpr
      rfl
  · exact (((c10_missing_id_frame (create_task [] ("t1") ("a task") 0) ("t1")
      TaskStatus.failed none { total_agents := 5 } ("ev") { final_report := "r" } 1).2.2)
      { task_id := "t1", task := "a task", status := TaskStatus.pending,
        created_at := 0, updated_at := 0, progress := { total_agents := 5 },
        result := none, error := none } rfl).1

end MultiAgent
